import Mathlib

set_option maxRecDepth 8000

/-!
Verification of the `llmrmgcore` graph-rewrite core (src/src/lib.rs) against
its specification.  The Rust code is shallowly embedded: pure functions become
Lean functions, the `&mut self` methods become explicit state passing on the
`InMemoryCore` structure, `Result` values become `Except String`, and a Rust
panic (reachable through the `unwrap()` in `simulate_apply`) is modelled as
the `none` case of an outer `Option`.
-/

/-- `Value` from lib.rs.  The `Float(f64)` payload is modelled by its 64-bit
pattern as a natural number; no claim in this development inspects floats. -/
inductive Value where
  | str (s : String)
  | int (i : Int)
  | float (bits : Nat)
  | bool (b : Bool)
  | null
  | list (vs : List Value)
  | obj (fields : List (String × Value))

/-- `Node` from lib.rs; `attrs : BTreeMap<String, Value>` is modelled as an
association list with keys in ascending order. -/
structure Node where
  id : String
  node_type : String
  attrs : List (String × Value)

/-- `Edge` from lib.rs. -/
structure Edge where
  id : String
  edge_type : String
  src : String
  dst : String
  attrs : List (String × Value)

/-- `Graph` from lib.rs: ordered node and edge sequences. -/
structure Graph where
  nodes : List Node
  edges : List Edge

/-- `SnapshotMetadata` from lib.rs; `DateTime<Utc>` is modelled as a Nat
timestamp (no claim inspects time). -/
structure SnapshotMetadata where
  revision : String
  timestamp : Nat
  actor_id : String
  description : String

/-- `GraphSnapshot` from lib.rs. -/
structure GraphSnapshot where
  graph : Graph
  metadata : SnapshotMetadata

/-- `AttrOp` from lib.rs. (`In` is renamed `isIn`: `in` is a Lean keyword.) -/
inductive AttrOp where
  | eq (value : Value)
  | neq (value : Value)
  | lt (value : Value)
  | lte (value : Value)
  | gt (value : Value)
  | gte (value : Value)
  | regex (pattern : String)
  | isIn (values : List Value)

/-- `NodePattern` from lib.rs. -/
structure NodePattern where
  var : String
  node_type : Option String
  attr_constraints : List (String × List AttrOp)

/-- `EdgePattern` from lib.rs. -/
structure EdgePattern where
  var : String
  edge_type : Option String
  src_var : String
  dst_var : String
  attr_constraints : List (String × List AttrOp)

/-- `StructuralConstraint` from lib.rs. -/
inductive StructuralConstraint where
  | distinctNodes (vars : List String)
  | distinctEdges (vars : List String)

/-- `GraphPattern` from lib.rs. -/
structure GraphPattern where
  nodes : List NodePattern
  edges : List EdgePattern
  constraints : List StructuralConstraint

/-- `RuleMetadata` from lib.rs; `created_at` modelled as a Nat timestamp. -/
structure RuleMetadata where
  id : String
  version : String
  description : String
  tags : List String
  author : String
  created_at : Nat

/-- `DpoRule` from lib.rs. -/
structure DpoRule where
  metadata : RuleMetadata
  left : GraphPattern
  interface : GraphPattern
  right : Graph

/-- `NodeType` from lib.rs. -/
inductive NodeType where
  | thread | turn | message | actor | concept | decision | task
deriving DecidableEq

/-- `EdgeType` from lib.rs. -/
inductive EdgeType where
  | hasTurn | hasMessage | authoredBy | respondsTo | mentions
  | relatesTo | decides | blockedBy | appliesTo | createsTask
deriving DecidableEq

/-- `NodeType::from_str` from lib.rs. -/
def NodeType.from_str (s : String) : Option NodeType :=
  if s = "Thread" then some .thread
  else if s = "Turn" then some .turn
  else if s = "Message" then some .message
  else if s = "Actor" then some .actor
  else if s = "Concept" then some .concept
  else if s = "Decision" then some .decision
  else if s = "Task" then some .task
  else none

/-- Rust `{:?}` (Debug) rendering of `NodeType`, used in invariant messages. -/
def NodeType.debugStr : NodeType → String
  | .thread => "Thread"
  | .turn => "Turn"
  | .message => "Message"
  | .actor => "Actor"
  | .concept => "Concept"
  | .decision => "Decision"
  | .task => "Task"

/-- `EdgeType::from_str` from lib.rs. -/
def EdgeType.from_str (s : String) : Option EdgeType :=
  if s = "HAS_TURN" then some .hasTurn
  else if s = "HAS_MESSAGE" then some .hasMessage
  else if s = "AUTHORED_BY" then some .authoredBy
  else if s = "RESPONDS_TO" then some .respondsTo
  else if s = "MENTIONS" then some .mentions
  else if s = "RELATES_TO" then some .relatesTo
  else if s = "DECIDES" then some .decides
  else if s = "BLOCKED_BY" then some .blockedBy
  else if s = "APPLIES_TO" then some .appliesTo
  else if s = "CREATES_TASK" then some .createsTask
  else none

/-- `EdgeType::as_str` from lib.rs. -/
def EdgeType.as_str : EdgeType → String
  | .hasTurn => "HAS_TURN"
  | .hasMessage => "HAS_MESSAGE"
  | .authoredBy => "AUTHORED_BY"
  | .respondsTo => "RESPONDS_TO"
  | .mentions => "MENTIONS"
  | .relatesTo => "RELATES_TO"
  | .decides => "DECIDES"
  | .blockedBy => "BLOCKED_BY"
  | .appliesTo => "APPLIES_TO"
  | .createsTask => "CREATES_TASK"

/-- `InvariantResult` from lib.rs. -/
structure InvariantResult where
  name : String
  passed : Bool
  message : String

/-- `ValidationReport` from lib.rs. -/
structure ValidationReport where
  is_valid : Bool
  is_confluent : Bool
  schema_valid : Bool
  invariants : List InvariantResult
  warnings : List String
  errors : List String

/-- `ValidationReport::from_invariants` from lib.rs. -/
def ValidationReport.from_invariants (invs : List InvariantResult) : ValidationReport :=
  let errors := invs.foldl (fun acc inv =>
    acc ++
      (if inv.passed then []
       else ["Invariant '" ++ inv.name ++ "' failed: " ++ inv.message])) []
  { is_valid := errors.isEmpty
    is_confluent := true
    schema_valid := errors.isEmpty
    invariants := invs
    warnings := []
    errors := errors }

/-- `check_no_orphan_messages` from lib.rs: the count of `HAS_MESSAGE` edges
whose `dst` is the given id (edges with an unrecognized type are skipped). -/
def hasMessageCount (g : Graph) (id : String) : Nat :=
  (g.edges.filter (fun e =>
    EdgeType.from_str e.edge_type == some .hasMessage && e.dst == id)).length

/-- `check_no_orphan_messages` from lib.rs: the count of `AUTHORED_BY` edges
whose `src` is the given id. -/
def authoredByCount (g : Graph) (id : String) : Nat :=
  (g.edges.filter (fun e =>
    EdgeType.from_str e.edge_type == some .authoredBy && e.src == id)).length

/-- `check_no_orphan_messages` from lib.rs. -/
def check_no_orphan_messages (graph : Graph) : InvariantResult :=
  let problems := graph.nodes.foldl (fun acc n =>
    if NodeType.from_str n.node_type == some .message then
      let hm := hasMessageCount graph n.id
      let ab := authoredByCount graph n.id
      if hm ≠ 1 ∨ ab ≠ 1 then
        acc ++ ["Message " ++ n.id ++ " has " ++ toString hm ++
                " HAS_MESSAGE and " ++ toString ab ++
                " AUTHORED_BY edges (expected 1 each)"]
      else acc
    else acc) []
  if problems.isEmpty then
    { name := "no_orphan_messages", passed := true,
      message := "All messages have exactly one HAS_MESSAGE and one AUTHORED_BY." }
  else
    { name := "no_orphan_messages", passed := false,
      message := String.intercalate "; " problems }

/-- The two `regex` crate matchers used by `check_no_assistant_pii_leak`
(email and phone patterns).  The `regex` crate is external to src, so the
matchers are threaded as parameters; every theorem below holds for an
arbitrary pair of matchers. -/
structure RegexFns where
  email : String → Bool
  phone : String → Bool

/-- `check_no_assistant_pii_leak` from lib.rs. -/
def check_no_assistant_pii_leak (re : RegexFns) (graph : Graph) : InvariantResult :=
  let problems := graph.nodes.foldl (fun acc n =>
    if NodeType.from_str n.node_type == some .message then
      let author := n.attrs.lookup "author"
      let is_assistant := match author with
        | some (Value.str s) => s == "assistant"
        | _ => false
      if is_assistant then
        match n.attrs.lookup "content" with
        | some (Value.str text) =>
          if re.email text || re.phone text then
            acc ++ ["Assistant message " ++ n.id ++ " appears to contain PII."]
          else acc
        | _ => acc
      else acc
    else acc) []
  if problems.isEmpty then
    { name := "no_assistant_pii_leak", passed := true,
      message := "No assistant messages contain obvious PII." }
  else
    { name := "no_assistant_pii_leak", passed := false,
      message := String.intercalate "; " problems }

/-- `check_well_typed_edges` from lib.rs: the `node_types` HashMap, built by
inserting every node with a recognized type.  Later inserts shadow earlier
ones, so the map is modelled by prepending and `lookup` takes the first hit. -/
def nodeTypesMap (graph : Graph) : List (String × NodeType) :=
  graph.nodes.foldl (fun m n =>
    match NodeType.from_str n.node_type with
    | some nt => (n.id, nt) :: m
    | none => m) []

/-- The allowed `(edge_type, src_type, dst_type)` table from
`check_well_typed_edges` in lib.rs. -/
def edgeTableOk : EdgeType → NodeType → NodeType → Bool
  | .hasTurn, .thread, .turn => true
  | .hasMessage, .turn, .message => true
  | .authoredBy, .message, .actor => true
  | .respondsTo, .message, .message => true
  | .mentions, .message, .concept => true
  | .relatesTo, .concept, .concept => true
  | .decides, .decision, .concept => true
  | .decides, .decision, .task => true
  | .blockedBy, .task, .task => true
  | .blockedBy, .task, .concept => true
  | .appliesTo, .decision, .thread => true
  | .createsTask, .message, .task => true
  | _, _, _ => false

/-- `check_well_typed_edges` from lib.rs. -/
def check_well_typed_edges (graph : Graph) : InvariantResult :=
  let node_types := nodeTypesMap graph
  let problems := graph.edges.foldl (fun acc e =>
    match EdgeType.from_str e.edge_type with
    | none => acc ++ ["Unknown edge type '" ++ e.edge_type ++ "' on edge " ++ e.id]
    | some et =>
      match node_types.lookup e.src with
      | none => acc ++ ["Edge " ++ e.id ++ " has unknown src node " ++ e.src]
      | some src_ty =>
        match node_types.lookup e.dst with
        | none => acc ++ ["Edge " ++ e.id ++ " has unknown dst node " ++ e.dst]
        | some dst_ty =>
          if edgeTableOk et src_ty dst_ty then acc
          else acc ++ ["Edge " ++ e.id ++ " of type " ++ et.as_str ++
                       " has illegal src/dst types: " ++ src_ty.debugStr ++
                       " -> " ++ dst_ty.debugStr]) []
  if problems.isEmpty then
    { name := "well_typed_edges", passed := true,
      message := "All edges respect allowed src/dst types." }
  else
    { name := "well_typed_edges", passed := false,
      message := String.intercalate "; " problems }

/-- `id.strip_prefix("var:")` from `check_immutable_history` in lib.rs,
implemented on the character list of the string. -/
def stripVarAux : List Char → Option (List Char)
  | 'v' :: 'a' :: 'r' :: ':' :: rest => some rest
  | _ => none

/-- `id.strip_prefix("var:")` as a `String` operation. -/
def stripVar (s : String) : Option String :=
  (stripVarAux s.data).map fun cs => String.mk cs

/-- `id.starts_with("new:")` from `simulate_apply` in lib.rs. -/
def startsWithNewAux : List Char → Bool
  | 'n' :: 'e' :: 'w' :: ':' :: _ => true
  | _ => false

/-- `id.starts_with("new:")` as a `String` operation. -/
def startsWithNew (s : String) : Bool := startsWithNewAux s.data

/-- `check_immutable_history` from lib.rs.  The Rust `HashSet`s are modelled
as lists; only the problem-message text (not the pass/fail verdict) could
differ from set deduplication and iteration order. -/
def check_immutable_history (rule : DpoRule) : InvariantResult :=
  let message_vars_in_left :=
    (rule.left.nodes.filter (fun np => np.node_type = some "Message")).map
      (fun np => np.var)
  if message_vars_in_left.isEmpty then
    { name := "immutable_history", passed := true,
      message := "Rule does not touch any Message nodes in L." }
  else
    let interface_vars := rule.interface.nodes.map (fun np => np.var)
    let vars_in_right := rule.right.nodes.filterMap (fun n => stripVar n.id)
    let problems := message_vars_in_left.foldl (fun acc v =>
      acc ++
        ((if interface_vars.contains v then []
          else ["Message var '" ++ v ++
                "' appears in L but not in interface K (would allow deletion)."]) ++
         (if vars_in_right.contains v then []
          else ["Message var '" ++ v ++ "' appears in L but no corresponding 'var:" ++
                v ++ "' node in R (would delete message)."]))) []
    if problems.isEmpty then
      { name := "immutable_history", passed := true,
        message := "All Messages in L are preserved via K and R; no deletions." }
    else
      { name := "immutable_history", passed := false,
        message := String.intercalate "; " problems }

/-- `InMemoryCore` from lib.rs. -/
structure InMemoryCore where
  snapshot : GraphSnapshot
  next_node_id : Nat
  next_edge_id : Nat

/-- `InMemoryCore::new` from lib.rs; `Utc::now()` is passed in as `now`. -/
def InMemoryCore.new (now : Nat) : InMemoryCore :=
  { snapshot :=
      { graph := { nodes := [], edges := [] }
        metadata :=
          { revision := "rev-0", timestamp := now, actor_id := "system",
            description := "Initial empty state" } }
    next_node_id := 1
    next_edge_id := 1 }

/-- The first loop of `simulate_apply` in lib.rs: for each node pattern of L,
find the first graph node whose `node_type` equals the pattern's unwrapped
`node_type` and record `"var:" ++ var ↦ node.id` in the id map.  The map is a
`HashMap`, modelled by prepending entries and looking up the first hit (so a
later insert shadows an earlier one).  The `unwrap()` runs inside the `find`
closure, so it panics (modelled as `none`) exactly when the pattern has no
`node_type` and the node list is non-empty. -/
def bindLeftVars (gnodes : List Node) :
    List NodePattern → List (String × String) → Option (List (String × String))
  | [], m => some m
  | np :: rest, m =>
    match gnodes, np.node_type with
    | [], _ => bindLeftVars gnodes rest m
    | _ :: _, none => none
    | _ :: _, some t =>
      match gnodes.find? (fun n => n.node_type == t) with
      | some node => bindLeftVars gnodes rest (("var:" ++ np.var, node.id) :: m)
      | none => bindLeftVars gnodes rest m

/-- The second loop of `simulate_apply` in lib.rs: for each node of R whose id
starts with `new:`, allocate `n{ctr}`, record the mapping, and collect the
node with its id replaced.  Returns the collected nodes (appended to the
graph), the final counter, and the extended id map. -/
def addRightNodes :
    List Node → Nat → List (String × String) →
      (List Node × Nat × List (String × String))
  | [], ctr, m => ([], ctr, m)
  | node :: rest, ctr, m =>
    if startsWithNew node.id then
      let new_id := "n" ++ toString ctr
      let (ns, ctr', m') := addRightNodes rest (ctr + 1) ((node.id, new_id) :: m)
      ({ node with id := new_id } :: ns, ctr', m')
    else addRightNodes rest ctr m

/-- The third loop of `simulate_apply` in lib.rs: for each edge of R whose id
starts with `new:`, allocate `e{ctr}` and resolve `src`/`dst` through the id
map (falling back to the literal id when unmapped). -/
def addRightEdges :
    List Edge → Nat → List (String × String) → List Edge
  | [], _, _ => []
  | edge :: rest, ctr, m =>
    if startsWithNew edge.id then
      let new_id := "e" ++ toString ctr
      let src := (m.lookup edge.src).getD edge.src
      let dst := (m.lookup edge.dst).getD edge.dst
      { edge with id := new_id, src := src, dst := dst } ::
        addRightEdges rest (ctr + 1) m
    else addRightEdges rest ctr m

/-- `InMemoryCore::simulate_apply` from lib.rs.  The Rust code pushes new
nodes and edges onto a clone of the current graph; this is rendered as
appending the collected lists.  `none` models the reachable `unwrap()` panic. -/
def InMemoryCore.simulate_apply (c : InMemoryCore) (rule : DpoRule) : Option Graph :=
  let g := c.snapshot.graph
  match bindLeftVars g.nodes rule.left.nodes [] with
  | none => none
  | some id_map =>
    let step := addRightNodes rule.right.nodes c.next_node_id id_map
    let newEdges := addRightEdges rule.right.edges c.next_edge_id step.2.2
    some { nodes := g.nodes ++ step.1, edges := g.edges ++ newEdges }

/-- `InMemoryCore::apply_rewrite` from lib.rs: promote the simulated graph to
the live snapshot.  The counters and the snapshot metadata are untouched
(the source comment defers the counter update to "a real implementation"). -/
def InMemoryCore.apply_rewrite (c : InMemoryCore) (rule : DpoRule) :
    Option InMemoryCore :=
  match c.simulate_apply rule with
  | none => none
  | some new_graph =>
    some { c with snapshot := { c.snapshot with graph := new_graph } }

/-- `RmgCore::validate` for `InMemoryCore` from lib.rs. -/
def InMemoryCore.validate (c : InMemoryCore) (re : RegexFns) (rule : DpoRule) :
    Option ValidationReport :=
  match c.simulate_apply rule with
  | none => none
  | some sandbox_graph =>
    some (ValidationReport.from_invariants
      [check_no_orphan_messages sandbox_graph,
       check_no_assistant_pii_leak re sandbox_graph,
       check_well_typed_edges sandbox_graph,
       check_immutable_history rule])

/-- Rust `rev.split('-')`, implemented structurally on the character list so
that closed theorems reduce definitionally. -/
def splitDash : List Char → List (List Char)
  | [] => [[]]
  | '-' :: rest => [] :: splitDash rest
  | c :: rest =>
    match splitDash rest with
    | [] => [[c]]
    | p :: ps => (c :: p) :: ps

/-- Digit-by-digit accumulation used by `parseU64`. -/
def parseDigitsAux : List Char → Nat → Option Nat
  | [], acc => some acc
  | c :: rest, acc =>
    if c.isDigit then parseDigitsAux rest (acc * 10 + (c.toNat - Char.toNat '0'))
    else none

/-- Rust `str::parse::<u64>()`: optional leading `+`, then one or more
digits.  (Values at or above 2^64 overflow in Rust and so land in the
`unwrap_or(0)` fallback; revision counters never get near that.) -/
def parseU64 : List Char → Option Nat
  | [] => none
  | '+' :: [] => none
  | '+' :: c :: rest => parseDigitsAux (c :: rest) 0
  | cs => parseDigitsAux cs 0

/-- The revision bump on line 645 of lib.rs:
`format!("rev-{}", rev.split('-').last().unwrap_or("0").parse::<u64>().unwrap_or(0) + 1)`. -/
def bumpRev (rev : String) : String :=
  "rev-" ++ toString (((parseU64 ((splitDash rev.data).getLastD ['0'])).getD 0) + 1)

/-- Rust `{:?}` (Debug) rendering of `Vec<String>`, used in the `bail!`
message of `apply`. -/
def debugStrList (xs : List String) : String :=
  "[" ++ String.intercalate ", " (xs.map (fun s => "\"" ++ s ++ "\"")) ++ "]"

/-- `ConfluenceProof` from lib.rs. -/
structure ConfluenceProof where
  method : String
  details : String

/-- `DiffSummary` from lib.rs. -/
structure DiffSummary where
  nodes_added : Nat
  nodes_removed : Nat
  edges_added : Nat
  edges_removed : Nat

/-- `ExecutionProof` from lib.rs. -/
structure ExecutionProof where
  rule_metadata : RuleMetadata
  rule_hash : String
  before_revision : String
  after_revision : String
  before_snapshot : Option GraphSnapshot
  after_snapshot : Option GraphSnapshot
  confluence_proof : Option ConfluenceProof
  diff_summary : DiffSummary
  actor_id : String
  timestamp : String

/-- `RmgCore::apply` for `InMemoryCore` from lib.rs.  The `&mut self` receiver
is rendered by returning the post-call core next to the `Result`; the outer
`Option` is `none` when the code would panic.  Note that line 645 of the
source assigns the bumped revision only to the local clone `after` that goes
into the returned proof: the live snapshot keeps its old revision. -/
def InMemoryCore.apply (c : InMemoryCore) (re : RegexFns) (rule : DpoRule) :
    Option (Except String ExecutionProof × InMemoryCore) :=
  match c.validate re rule with
  | none => none
  | some report =>
    if report.is_valid = false then
      some (Except.error
        ("Refusing to apply invalid rule: " ++ debugStrList report.errors), c)
    else
      match c.apply_rewrite rule with
      | none => none
      | some c' =>
        let before := c.snapshot
        let afterRev := bumpRev before.metadata.revision
        let after : GraphSnapshot :=
          { c'.snapshot with
              metadata := { c'.snapshot.metadata with revision := afterRev } }
        some (Except.ok
          { rule_metadata := rule.metadata
            rule_hash := "TODO-rule-hash"
            before_revision := before.metadata.revision
            after_revision := afterRev
            before_snapshot := some before
            after_snapshot := some after
            confluence_proof := none
            diff_summary := { nodes_added := 0, nodes_removed := 0,
                              edges_added := 0, edges_removed := 0 }
            actor_id := ""
            timestamp := "" }, c')

/-- The fixed timestamp `2025-11-15T12:00:00Z` used by the test suite,
as a Unix epoch second count. -/
def fixedTimestamp : Nat := 1763208000

/-- The seed graph of `create_test_core_with_initial_state` in
tests/v0_core_logic.rs: Thread `thread-1`, Turn `turn-1`, Message `msg-1`
(user-authored), Actor `user-actor`, with edges `e1`/`e2`/`e3`. -/
def testGraph : Graph :=
  { nodes :=
      [ { id := "thread-1", node_type := "Thread", attrs := [] },
        { id := "turn-1", node_type := "Turn", attrs := [] },
        { id := "msg-1", node_type := "Message",
          attrs :=
            [ ("author", Value.str "user"),
              ("content", Value.str "Please create a task to write the report.") ] },
        { id := "user-actor", node_type := "Actor", attrs := [] } ]
    edges :=
      [ { id := "e1", edge_type := "HAS_TURN", src := "thread-1", dst := "turn-1", attrs := [] },
        { id := "e2", edge_type := "HAS_MESSAGE", src := "turn-1", dst := "msg-1", attrs := [] },
        { id := "e3", edge_type := "AUTHORED_BY", src := "msg-1", dst := "user-actor", attrs := [] } ] }

/-- `create_test_core_with_initial_state` from tests/v0_core_logic.rs. -/
def testCore : InMemoryCore :=
  { snapshot :=
      { graph := testGraph
        metadata :=
          { revision := "rev-0", timestamp := fixedTimestamp,
            actor_id := "system", description := "Initial empty state" } }
    next_node_id := 1
    next_edge_id := 1 }

/-- The rule metadata of `create_task_rule` in tests/v0_core_logic.rs. -/
def testRuleMetadata : RuleMetadata :=
  { id := "rho_create_task_from_message"
    version := "0.1.0"
    description := "Creates a new Task node from a user message."
    tags := ["task", "creation"]
    author := "system"
    created_at := fixedTimestamp }

/-- `create_task_rule` from tests/v0_core_logic.rs:
L = K = `{msg : Message}`, R = `[var:msg, new:task]` plus a
`new:edge CREATES_TASK var:msg -> new:task`. -/
def createTaskRule : DpoRule :=
  { metadata := testRuleMetadata
    left :=
      { nodes := [ { var := "msg", node_type := some "Message", attr_constraints := [] } ]
        edges := []
        constraints := [] }
    interface :=
      { nodes := [ { var := "msg", node_type := some "Message", attr_constraints := [] } ]
        edges := []
        constraints := [] }
    right :=
      { nodes :=
          [ { id := "var:msg", node_type := "Message", attrs := [] },
            { id := "new:task", node_type := "Task",
              attrs :=
                [ ("status", Value.str "Pending"),
                  ("title", Value.str "Write the report") ] } ]
        edges :=
          [ { id := "new:edge", edge_type := "CREATES_TASK",
              src := "var:msg", dst := "new:task", attrs := [] } ] } }

/-- A pair of regex matchers that report no PII anywhere; used to instantiate
theorems at concrete inputs whose message contents plainly match neither
pattern. -/
def noPii : RegexFns := { email := fun _ => false, phone := fun _ => false }

/-- A rule whose L contains a Message variable that is absent from K and R:
`immutable_history` must reject it (scenario E of the spec). -/
def deleteMsgRule : DpoRule :=
  { metadata := { testRuleMetadata with id := "rho_delete_message" }
    left :=
      { nodes := [ { var := "m", node_type := some "Message", attr_constraints := [] } ]
        edges := []
        constraints := [] }
    interface := { nodes := [], edges := [], constraints := [] }
    right := { nodes := [], edges := [] } }

/-- `createTaskRule` with an attribute constraint `author = "assistant"` on
the L pattern variable `msg`. -/
def constrainedRule : DpoRule :=
  { metadata := { testRuleMetadata with id := "rho_constrained" }
    left :=
      { nodes :=
          [ { var := "msg", node_type := some "Message",
              attr_constraints := [ ("author", [AttrOp.eq (Value.str "assistant")]) ] } ]
        edges := []
        constraints := [] }
    interface := createTaskRule.interface
    right := createTaskRule.right }

/-- An engine whose graph holds a single Task node and nothing else. -/
def taskCore : InMemoryCore :=
  { snapshot :=
      { graph :=
          { nodes := [ { id := "task-1", node_type := "Task", attrs := [] } ]
            edges := [] }
        metadata :=
          { revision := "rev-0", timestamp := fixedTimestamp,
            actor_id := "system", description := "Initial empty state" } }
    next_node_id := 1
    next_edge_id := 1 }

/-- A rule whose L binds a Task variable that K does not preserve and R does
not mention: a DPO delete of the bound Task node. -/
def deleteTaskRule : DpoRule :=
  { metadata := { testRuleMetadata with id := "rho_delete_task" }
    left :=
      { nodes := [ { var := "t", node_type := some "Task", attr_constraints := [] } ]
        edges := []
        constraints := [] }
    interface := { nodes := [], edges := [], constraints := [] }
    right := { nodes := [], edges := [] } }

/-- A malformed rule: the L node pattern carries no `node_type`. -/
def noTypeRule : DpoRule :=
  { metadata := { testRuleMetadata with id := "rho_no_node_type" }
    left :=
      { nodes := [ { var := "x", node_type := none, attr_constraints := [] } ]
        edges := []
        constraints := [] }
    interface := { nodes := [], edges := [], constraints := [] }
    right := { nodes := [], edges := [] } }

/-- A rule whose R contains a node id with neither a `var:` nor a `new:`
sentinel prefix. -/
def rawIdRule : DpoRule :=
  { metadata := { testRuleMetadata with id := "rho_raw_id" }
    left := { nodes := [], edges := [], constraints := [] }
    interface := { nodes := [], edges := [], constraints := [] }
    right :=
      { nodes := [ { id := "task-raw", node_type := "Task",
                     attrs := [ ("title", Value.str "unprefixed") ] } ]
        edges := [] } }

/-- Projection: the `after_revision` of a successful apply result. -/
def okAfterRevision : Except String ExecutionProof → Option String
  | Except.ok p => some p.after_revision
  | Except.error _ => none

/-- Projection: whether an apply result is `Ok`. -/
def isOkE : Except String ExecutionProof → Bool
  | Except.ok _ => true
  | Except.error _ => false

/-- Projection: the proof of a successful apply result. -/
def okProof : Except String ExecutionProof → Option ExecutionProof
  | Except.ok p => some p
  | Except.error _ => none

/-- C1 check: a successful apply reports `after_revision = "rev-1"` in the
proof while the live snapshot keeps `"rev-0"`, and a second successful apply
reports `after_revision = "rev-1"` again instead of `"rev-2"`: the revision
chain never advances past the bump printed into the returned proof. -/
theorem live_revision_stuck_at_rev0 :
    (testCore.apply noPii createTaskRule).map
        (fun r => (okAfterRevision r.1, r.2.snapshot.metadata.revision)) =
      some (some "rev-1", "rev-0") ∧
    ((testCore.apply noPii createTaskRule).bind
        (fun r => r.2.apply noPii createTaskRule)).map
        (fun r2 => (okAfterRevision r2.1, r2.2.snapshot.metadata.revision)) =
      some (some "rev-1", "rev-0") := ⟨by rfl, by rfl⟩

/-- C4 check: the binding phase binds `msg` to `msg-1` although the pattern
constrains `author` to equal `"assistant"` and `msg-1` has `author = "user"`;
the committed graph wires the new `CREATES_TASK` edge to that node. -/
theorem binding_ignores_attr_constraints :
    bindLeftVars testCore.snapshot.graph.nodes constrainedRule.left.nodes [] =
        some [("var:msg", "msg-1")] ∧
    constrainedRule.left.nodes.map (fun np => np.attr_constraints) =
        [[("author", [AttrOp.eq (Value.str "assistant")])]] ∧
    (testCore.snapshot.graph.nodes.find? (fun n => n.id == "msg-1")).map
        (fun n => n.attrs.lookup "author") = some (some (Value.str "user")) ∧
    Value.str "user" ≠ Value.str "assistant" ∧
    (testCore.apply noPii constrainedRule).map
        (fun r => (isOkE r.1, r.2.snapshot.graph.edges.map (fun e => e.src))) =
      some (true, ["thread-1", "turn-1", "msg-1", "msg-1"]) := by
  refine ⟨by rfl, by rfl, by rfl, ?_, by rfl⟩
  intro h
  injection h with h2
  exact absurd h2 (by decide)

/-- C5 check: `deleteTaskRule` puts the Task variable `t` in L but not in K
and not in R, yet a successful apply leaves the graph untouched: the bound
Task node is not removed. -/
theorem delete_step_not_performed :
    deleteTaskRule.interface.nodes = [] ∧
    deleteTaskRule.right.nodes = [] ∧
    (taskCore.apply noPii deleteTaskRule).map
        (fun r => (isOkE r.1, r.2.snapshot.graph)) =
      some (true, taskCore.snapshot.graph) := ⟨rfl, rfl, by rfl⟩

/-- C6 check: on a rule whose L node pattern has no `node_type`, `validate`
and `apply` hit the `unwrap()` panic (modelled as `none`) instead of
returning an error value. -/
theorem validate_panics_on_missing_node_type :
    noTypeRule.left.nodes.map (fun np => np.node_type) = [none] ∧
    testCore.validate noPii noTypeRule = none ∧
    testCore.apply noPii noTypeRule = none := ⟨rfl, by rfl, by rfl⟩

/-- C7 check: the committed counters never advance, so the very first
successful apply on the seeded test graph allocates edge id `e1`, which
collides with the pre-existing edge `e1`; the counters still read 1. -/
theorem committed_apply_allocates_colliding_id :
    (testCore.apply noPii createTaskRule).map
        (fun r => (isOkE r.1,
          (r.2.snapshot.graph.edges.filter (fun e => e.id == "e1")).length,
          r.2.next_node_id, r.2.next_edge_id)) =
      some (true, 2, 1, 1) := by rfl

/-- C8 check: an R node whose id has neither a `var:` nor a `new:` sentinel
is silently dropped; `apply` succeeds and the graph is unchanged, with no
`MalformedRule` error. -/
theorem unprefixed_right_id_silently_dropped :
    rawIdRule.right.nodes.map (fun n => n.id) = ["task-raw"] ∧
    startsWithNew "task-raw" = false ∧
    stripVar "task-raw" = none ∧
    (testCore.apply noPii rawIdRule).map
        (fun r => (isOkE r.1, r.2.snapshot.graph)) =
      some (true, testCore.snapshot.graph) := ⟨rfl, rfl, rfl, by rfl⟩

/-- C2: whenever `apply` returns `Err`, the post-call engine snapshot (graph
and metadata) equals the pre-call snapshot.  The only `Err` exit of `apply`
is the `bail!` before any mutation; the panic exit is the separate `none`
case. -/
theorem apply_error_leaves_state_unchanged (re : RegexFns) (c : InMemoryCore)
    (rule : DpoRule) (e : String) (c' : InMemoryCore)
    (h : c.apply re rule = some (Except.error e, c')) :
    c'.snapshot = c.snapshot := by
  unfold InMemoryCore.apply at h
  split at h
  · exact absurd h (by simp)
  · split at h
    · simp only [Option.some.injEq, Prod.mk.injEq] at h
      rw [← h.2]
    · split at h
      · exact absurd h (by simp)
      · simp only [Option.some.injEq, Prod.mk.injEq] at h
        exact absurd h.1 (by simp)

/-- Witness for C2: the rule that would delete a Message fails validation on
the seeded test core, and `apply` hands back an unchanged engine. -/
theorem apply_error_leaves_state_unchanged_witness :
    testCore.snapshot = testCore.snapshot :=
  apply_error_leaves_state_unchanged noPii testCore deleteMsgRule
    "Refusing to apply invalid rule: [\"Invariant 'immutable_history' failed: Message var 'm' appears in L but not in interface K (would allow deletion).; Message var 'm' appears in L but no corresponding 'var:m' node in R (would delete message).\"]"
    testCore (by rfl)

/-- C3: two `apply` runs from equal starting states (same graph, same
metadata, same id counters) return equal `after_snapshot`s, equal
`diff_summary`s, and the same revision transition (`before_revision` and
`after_revision` both agree, hence equal increments). -/
theorem apply_deterministic (re : RegexFns) (c1 c2 : InMemoryCore) (rule : DpoRule)
    (hg : c1.snapshot.graph = c2.snapshot.graph)
    (hm : c1.snapshot.metadata = c2.snapshot.metadata)
    (hn : c1.next_node_id = c2.next_node_id)
    (he : c1.next_edge_id = c2.next_edge_id) :
    (c1.apply re rule).map (fun r => (okProof r.1).map (fun p => p.after_snapshot)) =
      (c2.apply re rule).map (fun r => (okProof r.1).map (fun p => p.after_snapshot)) ∧
    (c1.apply re rule).map (fun r => (okProof r.1).map (fun p => p.diff_summary)) =
      (c2.apply re rule).map (fun r => (okProof r.1).map (fun p => p.diff_summary)) ∧
    (c1.apply re rule).map (fun r => (okProof r.1).map
        (fun p => (p.before_revision, p.after_revision))) =
      (c2.apply re rule).map (fun r => (okProof r.1).map
        (fun p => (p.before_revision, p.after_revision))) := by
  have hc : c1 = c2 := by
    obtain ⟨⟨g1, m1⟩, n1, e1⟩ := c1
    obtain ⟨⟨g2, m2⟩, n2, e2⟩ := c2
    simp only at hg hm hn he
    rw [hg, hm, hn, he]
  rw [hc]
  exact ⟨rfl, rfl, rfl⟩

/-- Witness for C3 at the seeded test core and the create-task rule. -/
theorem apply_deterministic_witness :
    (testCore.apply noPii createTaskRule).map
        (fun r => (okProof r.1).map (fun p => p.after_snapshot)) =
      (testCore.apply noPii createTaskRule).map
        (fun r => (okProof r.1).map (fun p => p.after_snapshot)) ∧
    (testCore.apply noPii createTaskRule).map
        (fun r => (okProof r.1).map (fun p => p.diff_summary)) =
      (testCore.apply noPii createTaskRule).map
        (fun r => (okProof r.1).map (fun p => p.diff_summary)) ∧
    (testCore.apply noPii createTaskRule).map (fun r => (okProof r.1).map
        (fun p => (p.before_revision, p.after_revision))) =
      (testCore.apply noPii createTaskRule).map (fun r => (okProof r.1).map
        (fun p => (p.before_revision, p.after_revision))) :=
  apply_deterministic noPii testCore testCore createTaskRule rfl rfl rfl rfl

/-- Inversion of `simulate_apply`: a sandbox graph extends the old node and
edge sequences. -/
lemma simulate_apply_appends (c : InMemoryCore) (rule : DpoRule) (g : Graph)
    (h : c.simulate_apply rule = some g) :
    ∃ ns es, g =
      { nodes := c.snapshot.graph.nodes ++ ns,
        edges := c.snapshot.graph.edges ++ es } := by
  unfold InMemoryCore.simulate_apply at h
  dsimp only [] at h
  split at h
  · exact absurd h (by simp)
  · rename_i id_map hb
    simp only [Option.some.injEq] at h
    exact ⟨_, _, h.symm⟩

/-- Inversion of `apply_rewrite`: the promoted graph extends the old node and
edge sequences. -/
lemma apply_rewrite_appends (c : InMemoryCore) (rule : DpoRule) (c2 : InMemoryCore)
    (h : c.apply_rewrite rule = some c2) :
    ∃ ns es, c2.snapshot.graph =
      { nodes := c.snapshot.graph.nodes ++ ns,
        edges := c.snapshot.graph.edges ++ es } := by
  unfold InMemoryCore.apply_rewrite at h
  split at h
  · exact absurd h (by simp)
  · rename_i g hb
    obtain ⟨ns, es, hg⟩ := simulate_apply_appends c rule g hb
    simp only [Option.some.injEq] at h
    exact ⟨ns, es, by rw [← h]; exact hg⟩

/-- Inversion of a successful `apply`: the post-call core is the one produced
by `apply_rewrite`. -/
lemma apply_ok_core (re : RegexFns) (c : InMemoryCore) (rule : DpoRule)
    (r : Except String ExecutionProof × InMemoryCore)
    (h : c.apply re rule = some r) (hok : isOkE r.1 = true) :
    c.apply_rewrite rule = some r.2 := by
  unfold InMemoryCore.apply at h
  split at h
  · exact absurd h (by simp)
  · split at h
    · simp only [Option.some.injEq] at h
      rw [← h] at hok
      exact absurd hok (by simp [isOkE])
    · split at h
      · exact absurd h (by simp)
      · rename_i c2 hr
        simp only [Option.some.injEq] at h
        rw [← h]
        exact hr

/-- C10: a successful `apply` only appends: the pre-call node and edge
sequences are unchanged and new elements sit at the end. -/
theorem successful_apply_appends_only (re : RegexFns) (c : InMemoryCore)
    (rule : DpoRule)
    (h : (c.apply re rule).map (fun r => isOkE r.1) = some true) :
    ∃ ns es, (c.apply re rule).map (fun r => r.2.snapshot.graph) =
      some { nodes := c.snapshot.graph.nodes ++ ns,
             edges := c.snapshot.graph.edges ++ es } := by
  cases hA : c.apply re rule with
  | none => rw [hA] at h; exact absurd h (by simp)
  | some r =>
    rw [hA] at h
    simp only [Option.map_some', Option.some.injEq] at h
    obtain ⟨ns, es, hg⟩ :=
      apply_rewrite_appends c rule r.2 (apply_ok_core re c rule r hA h)
    exact ⟨ns, es, by simp only [Option.map_some', Option.some.injEq]; exact hg⟩

/-- Witness for C10: the create-task rule on the seeded test core. -/
theorem successful_apply_appends_only_witness :
    ∃ ns es, (testCore.apply noPii createTaskRule).map
        (fun r => r.2.snapshot.graph) =
      some { nodes := testCore.snapshot.graph.nodes ++ ns,
             edges := testCore.snapshot.graph.edges ++ es } :=
  successful_apply_appends_only noPii testCore createTaskRule (by rfl)

/-- Appending lists is empty exactly when both sides are. -/
lemma isEmpty_append {β : Type} (a b : List β) :
    (a ++ b).isEmpty = (a.isEmpty && b.isEmpty) := by
  cases a <;> simp

/-- Emptiness of a fold that appends a block per element. -/
lemma foldl_append_isEmpty {α β : Type} (g : α → List β) (xs : List α)
    (acc : List β) :
    (xs.foldl (fun a v => a ++ g v) acc).isEmpty =
      (acc.isEmpty && xs.all fun v => (g v).isEmpty) := by
  induction xs generalizing acc with
  | nil => simp
  | cons x xs ih =>
    simp only [List.foldl_cons, List.all_cons, ih, isEmpty_append,
      Bool.and_assoc]

/-- `from_invariants` reports `is_valid` exactly when every invariant passed. -/
lemma from_invariants_is_valid (invs : List InvariantResult) :
    (ValidationReport.from_invariants invs).is_valid =
      invs.all (fun inv => inv.passed) := by
  unfold ValidationReport.from_invariants
  dsimp only []
  rw [foldl_append_isEmpty]
  simp only [List.isEmpty_nil, Bool.true_and]
  congr 1
  funext inv
  by_cases hp : inv.passed <;> simp [hp]

/-- Inversion of `stripVarAux`. -/
lemma stripVarAux_eq_some (l cs : List Char) (h : stripVarAux l = some cs) :
    l = 'v' :: 'a' :: 'r' :: ':' :: cs := by
  unfold stripVarAux at h
  split at h
  · simp only [Option.some.injEq] at h
    rw [h]
  · exact absurd h (by simp)

/-- `strip_prefix("var:")` succeeds with `v` exactly when the id is the
concatenation `"var:" ++ v`. -/
lemma stripVar_eq_some_iff (s v : String) :
    stripVar s = some v ↔ s = "var:" ++ v := by
  constructor
  · intro h
    unfold stripVar at h
    cases hs : stripVarAux s.data with
    | none => rw [hs] at h; exact absurd h (by simp)
    | some cs =>
      rw [hs] at h
      simp only [Option.map_some', Option.some.injEq] at h
      have hdata := stripVarAux_eq_some s.data cs hs
      apply String.ext
      rw [String.data_append, hdata, ← h]
      rfl
  · intro h
    rw [h]
    unfold stripVar
    have hd : ("var:" ++ v).data = 'v' :: 'a' :: 'r' :: ':' :: v.data := by
      rw [String.data_append]
      rfl
    rw [hd]
    simp [stripVarAux]

/-- Emptiness of the problem list built by `check_immutable_history`. -/
lemma check_problems_isEmpty (ivars rvars : List String) (mvars : List String) :
    (mvars.foldl (fun acc v =>
      acc ++
        ((if ivars.contains v then []
          else ["Message var '" ++ v ++
                "' appears in L but not in interface K (would allow deletion)."]) ++
         (if rvars.contains v then []
          else ["Message var '" ++ v ++ "' appears in L but no corresponding 'var:" ++
                v ++ "' node in R (would delete message)."]))) []).isEmpty
      = mvars.all (fun v => ivars.contains v && rvars.contains v) := by
  rw [foldl_append_isEmpty]
  simp only [List.isEmpty_nil, Bool.true_and]
  congr 1
  funext v
  by_cases h1 : v ∈ ivars <;> by_cases h2 : v ∈ rvars <;>
    simp [h1, h2, isEmpty_append]

/-- The verdict of `check_immutable_history`, as an `all` over the Message
variables of L. -/
lemma check_immutable_history_passed (rule : DpoRule) :
    (check_immutable_history rule).passed =
      ((rule.left.nodes.filter (fun np => np.node_type = some "Message")).map
          (fun np => np.var)).all
        (fun v => (rule.interface.nodes.map (fun np => np.var)).contains v &&
                  (rule.right.nodes.filterMap (fun n => stripVar n.id)).contains v) := by
  unfold check_immutable_history
  dsimp only []
  rw [check_problems_isEmpty]
  split_ifs with h1 h2
  · rw [List.isEmpty_iff] at h1
    rw [h1]
    rfl
  · exact h2.symm
  · simp only [Bool.not_eq_true] at h2
    exact h2.symm

/-- C9: `immutable_history` passes a rule exactly when every node variable of
L typed `Message` both appears among K's node variables and has a
`var:`-prefixed node in R; and whenever the check fails, `validate` (when it
returns a report at all) marks the rule invalid. -/
theorem immutable_history_check_correct (rule : DpoRule) :
    ((check_immutable_history rule).passed = true ↔
      ∀ np ∈ rule.left.nodes, np.node_type = some "Message" →
        (∃ kp ∈ rule.interface.nodes, kp.var = np.var) ∧
        (∃ n ∈ rule.right.nodes, n.id = "var:" ++ np.var)) ∧
    (∀ (re : RegexFns) (c : InMemoryCore),
      (c.validate re rule).isSome = true →
      (check_immutable_history rule).passed = false →
      (c.validate re rule).map (fun r => r.is_valid) = some false) := by
  constructor
  · rw [check_immutable_history_passed, List.all_eq_true]
    simp only [List.mem_map, List.mem_filter, List.mem_filterMap,
      List.elem_eq_mem, decide_eq_true_eq, Bool.and_eq_true,
      stripVar_eq_some_iff, forall_exists_index, and_imp]
    constructor
    · intro h np hmem hmsg
      obtain ⟨h1, h2⟩ := h np.var np hmem hmsg rfl
      obtain ⟨kp, hkp, hkv⟩ := h1
      obtain ⟨n, hn, hnv⟩ := h2
      exact ⟨⟨kp, hkp, hkv⟩, ⟨n, hn, hnv⟩⟩
    · intro h v np hmem hmsg hvar
      obtain ⟨⟨kp, hkp, hkv⟩, ⟨n, hn, hnv⟩⟩ := h np hmem hmsg
      subst hvar
      exact ⟨⟨kp, hkp, hkv⟩, ⟨n, hn, hnv⟩⟩
  · intro re c hs hf
    cases hv : c.validate re rule with
    | none => rw [hv] at hs; exact absurd hs (by simp)
    | some report =>
      simp only [Option.map_some', Option.some.injEq]
      unfold InMemoryCore.validate at hv
      split at hv
      · exact absurd hv (by simp)
      · simp only [Option.some.injEq] at hv
        rw [← hv, from_invariants_is_valid]
        simp [hf]

/-- Witness for C9: the Message-deleting rule fails the check on the seeded
test core and `validate` reports it invalid. -/
theorem immutable_history_check_correct_witness :
    (testCore.validate noPii deleteMsgRule).map (fun r => r.is_valid) =
      some false :=
  (immutable_history_check_correct deleteMsgRule).2 noPii testCore (by rfl)
    (by rfl)
